import Mathlib

/-!
Verification of the thunder_rs bridge: a shallow embedding of the frame
codec (`read_request`, `send_response` in `host/src/main.rs`), the dispatch
loop of `main`, and the cross-boundary adapter of `sdk/src/lib.rs`.

Bytes are modelled as `Nat` (each in `[0, 256)` when produced by the code),
byte streams as `List Nat`.  A TCP stream that the peer has closed is
modelled as the stream ending: `read` on it returns fewer bytes than asked
(zero at EOF), exactly as `std::io::Read::read` does after orderly shutdown.
A Rust panic (from `expect`/`unwrap`/`assert!` or plugin code) is modelled as
`Except.error`.
-/

/-- Command id for Invoke frames (`ID_INVOKE` in `host/src/main.rs`). -/
def ID_INVOKE : Nat := 1

/-- Command id for Attach frames (`ID_ATTACH`). -/
def ID_ATTACH : Nat := 2

/-- Command id for Exit frames (`ID_EXIT`). -/
def ID_EXIT : Nat := 3

/-- The four-byte read buffer `let mut buf = [0; 4]` of `read_request`. -/
structure Buf4 where
  b0 : Nat
  b1 : Nat
  b2 : Nat
  b3 : Nat
deriving DecidableEq

/-- Big-endian bytes of a `u32`, as `NetworkEndian::write_u32` produces them
(the `% 256` is the byte extraction of the `u32` value). -/
def toBE32 (n : Nat) : List Nat :=
  [n / 16777216 % 256, n / 65536 % 256, n / 256 % 256, n % 256]

/-- `NetworkEndian::read_u32` on the four bytes of the buffer. -/
def readU32 (buf : Buf4) : Nat :=
  ((buf.b0 * 256 + buf.b1) * 256 + buf.b2) * 256 + buf.b3

/-- `stream.read(&mut buf)` writes the `k` bytes it got into `buf[0..k]` and
leaves `buf[k..]` unchanged (stale). -/
def refillBuf (old : Buf4) (new : List Nat) : Buf4 :=
  match new with
  | [] => old
  | [a] => ⟨a, old.b1, old.b2, old.b3⟩
  | [a, b] => ⟨a, b, old.b2, old.b3⟩
  | [a, b, c] => ⟨a, b, c, old.b3⟩
  | a :: b :: c :: d :: _ => ⟨a, b, c, d⟩

/-- One `stream.read(&mut buf)` with the 4-byte buffer: it returns up to 4
bytes (fewer near end of stream, zero at EOF) and is `Ok` in every such case;
the buffer keeps its stale tail. -/
def readFourRaw (buf : Buf4) (s : List Nat) : Buf4 × List Nat :=
  (refillBuf buf (s.take 4), s.drop 4)

/-- One `stream.read(&mut buf1)` with the 1-byte buffer `[0; 1]` of the Attach
branch: at EOF the fresh zero initialisation remains. -/
def readOneRaw (s : List Nat) : Nat × List Nat :=
  match s with
  | [] => (0, [])
  | x :: r => (x, r)

/-- `stream.read_exact(&mut jbuf)`: fills exactly `n` bytes or fails
(`expect` panics, modelled as `Except.error`). -/
def read_exact (s : List Nat) (n : Nat) (msg : String) : Except String (List Nat × List Nat) :=
  if n ≤ s.length then .ok (s.take n, s.drop n) else .error msg

/-- Is `b` a UTF-8 continuation byte (`0x80..=0xBF`)? -/
def contByte (b : Nat) : Bool :=
  128 ≤ b && b ≤ 191

/-- The UTF-8 validity check performed by Rust `String::from_utf8`:
ASCII, 2-byte `0xC2..=0xDF`, 3-byte with the `0xE0`/`0xED` special ranges
(no overlongs, no surrogates), 4-byte with the `0xF0`/`0xF4` special ranges
(no overlongs, nothing above U+10FFFF). -/
def validUtf8 : List Nat → Bool
  | [] => true
  | b :: rest =>
    if b < 128 then validUtf8 rest
    else if 194 ≤ b && b ≤ 223 then
      match rest with
      | c1 :: r => contByte c1 && validUtf8 r
      | [] => false
    else if b = 224 then
      match rest with
      | c1 :: c2 :: r => (160 ≤ c1 && c1 ≤ 191) && contByte c2 && validUtf8 r
      | _ => false
    else if (225 ≤ b && b ≤ 236) || b = 238 || b = 239 then
      match rest with
      | c1 :: c2 :: r => contByte c1 && contByte c2 && validUtf8 r
      | _ => false
    else if b = 237 then
      match rest with
      | c1 :: c2 :: r => (128 ≤ c1 && c1 ≤ 159) && contByte c2 && validUtf8 r
      | _ => false
    else if b = 240 then
      match rest with
      | c1 :: c2 :: c3 :: r => (144 ≤ c1 && c1 ≤ 191) && contByte c2 && contByte c3 && validUtf8 r
      | _ => false
    else if 241 ≤ b && b ≤ 243 then
      match rest with
      | c1 :: c2 :: c3 :: r => contByte c1 && contByte c2 && contByte c3 && validUtf8 r
      | _ => false
    else if b = 244 then
      match rest with
      | c1 :: c2 :: c3 :: r => (128 ≤ c1 && c1 ≤ 143) && contByte c2 && contByte c3 && validUtf8 r
      | _ => false
    else false

/-- `String::from_utf8(jbuf).expect(msg)`: the bytes themselves when valid
UTF-8, a panic otherwise. -/
def from_utf8 (bs : List Nat) (msg : String) : Except String (List Nat) :=
  if validUtf8 bs then .ok bs else .error msg

/-- The `if token_len > 0 { read_exact; from_utf8 }` block of the Invoke
branch of `read_request` (used once for the token, once for the json). -/
def readTokenField (len : Nat) (s : List Nat) (msg : String) :
    Except String (List Nat × List Nat) :=
  if len > 0 then
    match read_exact s len msg with
    | .error e => .error e
    | .ok (jbuf, s1) =>
      match from_utf8 jbuf msg with
      | .error e => .error e
      | .ok t => .ok (t, s1)
  else .ok ([], s)

/-- `InvokeRequest` of `host/src/main.rs`; `token` and `json` are the byte
contents of the Rust `String`s. -/
structure InvokeRequest where
  channel : Nat
  token : List Nat
  json : List Nat
deriving DecidableEq

/-- `AttachRequest` of `host/src/main.rs`. -/
structure AttachRequest where
  channel : Nat
  attach : Bool
deriving DecidableEq

/-- `Request` of `host/src/main.rs`. -/
inductive Request where
  | Invoke : InvokeRequest → Request
  | Attach : AttachRequest → Request
  | Exit : Request
  | Err : String → Request
deriving DecidableEq

/-- `read_request` of `host/src/main.rs`, on a stream whose remaining bytes
are `s` (EOF after them).  Returns the parsed request and the rest of the
stream; `Except.error` is a panic of one of the `expect`s. -/
def read_request (s : List Nat) : Except String (Request × List Nat) :=
  let p0 := readFourRaw ⟨0, 0, 0, 0⟩ s
  let buf := p0.1
  let command_id := readU32 buf
  if command_id = ID_INVOKE then
    let p1 := readFourRaw buf p0.2
    let channel := readU32 p1.1
    let p2 := readFourRaw p1.1 p1.2
    let token_len := readU32 p2.1
    let p3 := readFourRaw p2.1 p2.2
    let json_len := readU32 p3.1
    match readTokenField token_len p3.2 "read_request failed to read token" with
    | .error e => .error e
    | .ok (token, s4) =>
      match readTokenField json_len s4 "read_request failed to read json" with
      | .error e => .error e
      | .ok (json, s5) => .ok (.Invoke ⟨channel, token, json⟩, s5)
  else if command_id = ID_ATTACH then
    let p1 := readFourRaw buf p0.2
    let channel := readU32 p1.1
    let p2 := readOneRaw p1.2
    .ok (.Attach ⟨channel, p2.1 != 0⟩, p2.2)
  else if command_id = ID_EXIT then
    .ok (.Exit, p0.2)
  else
    .ok (.Err ("Invalid command_id " ++ toString command_id), p0.2)

/-- `send_response` of `host/src/main.rs` as the bytes it writes: channel,
`json.len() as u32` (the cast truncates modulo `2^32`), then the payload
bytes when non-empty. -/
def send_response (channel : Nat) (json : List Nat) : List Nat :=
  toBE32 channel ++ toBE32 (json.length % 4294967296) ++
    (if json.length > 0 then json else [])

/-- Modelled from the spec: the Invoke request frame layout of §4.1
(`id, channel, token_len, payload_len, token bytes, payload bytes`, a
zero-length field omitted).  The encoder itself lives in the C++ Thunder
host, not in this repository. -/
def encodeInvokeFrame (channel : Nat) (token json : List Nat) : List Nat :=
  toBE32 ID_INVOKE ++ toBE32 channel ++ toBE32 token.length ++
    toBE32 json.length ++ token ++ json

/-- Modelled from the spec: the Attach request frame layout of §4.1
(`id, channel, one boolean byte`). -/
def encodeAttachFrame (channel : Nat) (attach : Bool) : List Nat :=
  toBE32 ID_ATTACH ++ toBE32 channel ++ [if attach then 1 else 0]

/-- Modelled from the spec: the Exit request frame layout of §4.1 (id only). -/
def encodeExitFrame : List Nat :=
  toBE32 ID_EXIT

/-- Modelled from the spec: decode-as-response, the read the C++ host
performs on the response wire format of §4.1 (channel, payload_len, payload;
no command id).  Returns the channel, payload and remaining bytes. -/
def decodeResponse (s : List Nat) : Option (Nat × List Nat × List Nat) :=
  match s with
  | a :: b :: c :: d :: e :: f :: g :: h :: rest =>
    let channel := ((a * 256 + b) * 256 + c) * 256 + d
    let len := ((e * 256 + f) * 256 + g) * 256 + h
    if len ≤ rest.length then some (channel, rest.take len, rest.drop len)
    else none
  | _ => none

/-- `Message` of `sdk/src/lib.rs`: one queued response. -/
structure Message where
  channel : Nat
  data : List Nat
deriving DecidableEq

/-- `RequestContext` of `sdk/src/lib.rs`.  The `responder` field (an mpsc
`Sender`) is modelled implicitly: a callback reports the payloads it passed
to `ctx.send`, and the dispatcher enqueues `ctx.send`-built messages. -/
structure RequestContext where
  channel : Nat
  auth_token : List Nat
deriving DecidableEq

/-- `RequestContext::send` of `sdk/src/lib.rs`: builds one `Message` whose
channel is the context channel and enqueues it (fire-and-forget). -/
def RequestContext.send (ctx : RequestContext) (json : List Nat) : Message :=
  ⟨ctx.channel, json⟩

/-- The `Plugin` trait of `sdk/src/lib.rs`, over plugin state `σ`.
`on_message` returns the new state and the payloads it sent through the
received context, or `Except.error` for a panic inside the callback;
likewise for the two attach callbacks. -/
structure Plugin (σ : Type) where
  on_message : σ → List Nat → RequestContext → Except String (σ × List (List Nat))
  on_client_connect : σ → Nat → Except String σ
  on_client_disconnect : σ → Nat → Except String σ

/-- Observable callback events of one dispatch-loop run. -/
inductive Event where
  | invoked : Nat → List Nat → List Nat → Event
  | connected : Nat → Event
  | disconnected : Nat → Event
  | errLogged : String → Event
  | exited : Event
deriving DecidableEq

/-- One iteration of the `while running` match in `main` of
`host/src/main.rs`: read one request and dispatch it.  Returns the new
plugin state, the remaining stream, the messages enqueued on the relay, the
events, and whether `running` was set to `false` (Exit).  `Except.error` is
an uncaught panic (from `read_request` or from the callback, which `main`
does not wrap in any catch). -/
def dispatchOne (p : Plugin σ) (st : σ) (s : List Nat) :
    Except String (σ × List Nat × List Message × List Event × Bool) :=
  match read_request s with
  | .error e => .error e
  | .ok (req, s1) =>
    match req with
    | .Invoke r =>
      let req_ctx : RequestContext := ⟨r.channel, r.token⟩
      match p.on_message st r.json req_ctx with
      | .error e => .error e
      | .ok (st1, sends) =>
        .ok (st1, s1, sends.map req_ctx.send, [.invoked r.channel r.token r.json], false)
    | .Attach r =>
      if r.attach then
        match p.on_client_connect st r.channel with
        | .error e => .error e
        | .ok st1 => .ok (st1, s1, [], [.connected r.channel], false)
      else
        match p.on_client_disconnect st r.channel with
        | .error e => .error e
        | .ok st1 => .ok (st1, s1, [], [.disconnected r.channel], false)
    | .Exit => .ok (st, s1, [], [.exited], true)
    | .Err m => .ok (st, s1, [], [.errLogged m], false)

/-- Result of a dispatch-loop run: final plugin state, unread stream, relay
queue contents, events, and whether the loop ended through Exit (`running =
false`) rather than through exhausted fuel. -/
structure LoopResult (σ : Type) where
  ps : σ
  stream : List Nat
  queue : List Message
  events : List Event
  exited : Bool
deriving DecidableEq

/-- The `while running` dispatch loop of `main` in `host/src/main.rs`,
run for at most `fuel` iterations.  A panic anywhere in an iteration
(`Except.error`) terminates the loop and the process. -/
def dispatchLoop (p : Plugin σ) :
    Nat → σ → List Nat → List Message → List Event → Except String (LoopResult σ)
  | 0, st, s, q, ev => .ok ⟨st, s, q, ev, false⟩
  | fuel + 1, st, s, q, ev =>
    match dispatchOne p st s with
    | .error e => .error e
    | .ok (st1, s1, msgs, evs, exitNow) =>
      if exitNow then .ok ⟨st1, s1, q ++ msgs, ev ++ evs, true⟩
      else dispatchLoop p fuel st1 s1 (q ++ msgs) (ev ++ evs)

/-- The writer thread body of `main`: each `Message` received from the
channel is written with `send_response` as exactly one frame. -/
def writeMessage (m : Message) : List Nat :=
  send_response m.channel m.data

/-- `CRequestContext` of `sdk/src/lib.rs`: the C-side context; the
`auth_token` field is a nullable C string pointer (`none` = null). -/
structure CRequestContext where
  channel : Nat
  auth_token : Option (List Nat)

/-- `cstr_to_string` of `sdk/src/lib.rs`: a null pointer becomes the empty
string; otherwise `CStr::to_str().unwrap()` panics on invalid UTF-8. -/
def cstr_to_string (s : Option (List Nat)) : Except String (List Nat) :=
  match s with
  | none => .ok []
  | some bs => if validUtf8 bs then .ok bs else .error "cstr_to_string: to_str failed"

/-- `ServiceMetadata` of `sdk/src/lib.rs`, with the plugin instance state
type `σ` standing for the boxed trait object the constructor produces. -/
structure ServiceMetadata (σ : Type) where
  name : List Nat
  version : Nat × Nat × Nat
  create : Unit → σ

/-- `CPlugin` of `sdk/src/lib.rs`.  Its trait-object vtable is passed
separately as a `Plugin σ`; the mpsc sender is modelled by returning the
messages handed to the per-instance relay. -/
structure CPlugin (σ : Type) where
  name : List Nat
  ps : σ

/-- `CPlugin::on_incoming_message` of `sdk/src/lib.rs`: convert the C
strings (either conversion may panic on invalid UTF-8), build the
`RequestContext`, call the plugin callback; messages it sent through the
context go to the per-instance relay. -/
def CPlugin.on_incoming_message (impl : Plugin σ) (cp : CPlugin σ)
    (json_req : Option (List Nat)) (ctx : CRequestContext) :
    Except String (CPlugin σ × List Message) :=
  match cstr_to_string json_req with
  | .error e => .error e
  | .ok req =>
    match cstr_to_string ctx.auth_token with
    | .error e => .error e
    | .ok tok =>
      let req_ctx : RequestContext := ⟨ctx.channel, tok⟩
      match impl.on_message cp.ps req req_ctx with
      | .error e => .error e
      | .ok (ps1, sends) => .ok ({ cp with ps := ps1 }, sends.map req_ctx.send)

/-- `wpe_rust_plugin_create` of `sdk/src/lib.rs`: asserts the metadata
pointer non-null, then builds the `CPlugin` from the descriptor.  The
`_name` pointer argument is neither validated nor dereferenced; the relay
thread spawned here is modelled by `relayDeliver` below.  The outer
`Except.error` is a panic escaping the `extern` function (abort). -/
def wpe_rust_plugin_create (σ : Type) (_name : Option (List Nat))
    (meta_data : Option (ServiceMetadata σ)) : Except String (CPlugin σ) :=
  match meta_data with
  | none => .error "assertion failed: !meta_data.is_null()"
  | some md => .ok ⟨md.name, md.create ()⟩

/-- `wpe_rust_plugin_destroy` of `sdk/src/lib.rs`: asserts non-null, then
drops the boxed plugin. -/
def wpe_rust_plugin_destroy (ptr : Option (CPlugin σ)) : Except String Unit :=
  match ptr with
  | none => .error "assertion failed: !ptr.is_null()"
  | some _ => .ok ()

/-- `wpe_rust_plugin_init` of `sdk/src/lib.rs`: its body (including its
null assertion) is commented out; it dereferences nothing and returns. -/
def wpe_rust_plugin_init (σ : Type) (_ptr : Option (CPlugin σ))
    (_json : Option (List Nat)) : Except String Unit :=
  .ok ()

/-- `wpe_rust_plugin_invoke` of `sdk/src/lib.rs`: asserts `ptr` and
`json_req` non-null (a failed assertion is the outer `Except.error`,
an abort), then runs `on_incoming_message` under
`std::panic::catch_unwind`: a contained failure is logged (the returned
`List String`) and the call returns normally with no effect. -/
def wpe_rust_plugin_invoke (impl : Plugin σ) (ptr : Option (CPlugin σ))
    (json_req : Option (List Nat)) (req_ctx : CRequestContext) :
    Except String (CPlugin σ × List Message × List String) :=
  match ptr with
  | none => .error "assertion failed: !ptr.is_null()"
  | some cp =>
    match json_req with
    | none => .error "assertion failed: !json_req.is_null()"
    | some jb =>
      match CPlugin.on_incoming_message impl cp (some jb) req_ctx with
      | .error cause => .ok (cp, [], ["Error calling on_incoming_message", cause])
      | .ok (cp1, msgs) => .ok (cp1, msgs, [])

/-- `wpe_rust_plugin_on_client_connect` of `sdk/src/lib.rs`: asserts `ptr`
non-null, then calls the plugin callback under `catch_unwind`. -/
def wpe_rust_plugin_on_client_connect (impl : Plugin σ) (ptr : Option (CPlugin σ))
    (channel : Nat) : Except String (CPlugin σ × List String) :=
  match ptr with
  | none => .error "assertion failed: !ptr.is_null()"
  | some cp =>
    match impl.on_client_connect cp.ps channel with
    | .error cause => .ok (cp, ["Error calling on_client_connect", cause])
    | .ok ps1 => .ok ({ cp with ps := ps1 }, [])

/-- `wpe_rust_plugin_on_client_disconnect` of `sdk/src/lib.rs`: asserts
`ptr` non-null, then calls the plugin callback under `catch_unwind`. -/
def wpe_rust_plugin_on_client_disconnect (impl : Plugin σ) (ptr : Option (CPlugin σ))
    (channel : Nat) : Except String (CPlugin σ × List String) :=
  match ptr with
  | none => .error "assertion failed: !ptr.is_null()"
  | some cp =>
    match impl.on_client_disconnect cp.ps channel with
    | .error cause => .ok (cp, ["Error calling on_client_disconnect", cause])
    | .ok ps1 => .ok ({ cp with ps := ps1 }, [])

/-- The relay thread spawned by `wpe_rust_plugin_create`: one `send_func`
delivery per received `Message`, passing channel, payload and the opaque
`plugin_ctx` unchanged. -/
def relayDeliver (plugin_ctx : Nat) (msgs : List Message) : List (Nat × List Nat × Nat) :=
  msgs.map (fun m => (m.channel, m.data, plugin_ctx))

/-- Whole-process state of the host adapter: the dispatcher thread (plugin
state, read stream, `running` flag), the relay queue between the threads,
the writer thread's output, and whether `main` has returned (closing the
connection and ending the process) or a panic has killed the process. -/
structure SysState (σ : Type) where
  ps : σ
  stream : List Nat
  queue : List Message
  written : List Message
  readingDone : Bool
  exited : Bool
  crashed : Bool
deriving DecidableEq

/-- A scheduling choice: run the dispatcher thread for one loop iteration,
run the writer thread for one `rx.recv()`, or let `main` proceed past the
loop (`drop(stream)` and return, which ends the process). -/
inductive Choice where
  | disp
  | writer
  | close
deriving DecidableEq

/-- One scheduled step of the host adapter process.  The code provides no
synchronisation between the end of the dispatch loop and the writer thread:
`main` never joins the writer, so `close` is enabled as soon as the loop has
ended, queue drained or not.  After `close` (process exit) no thread runs. -/
def sysStep (p : Plugin σ) (c : Choice) (st : SysState σ) : SysState σ :=
  if st.exited || st.crashed then st
  else
    match c with
    | .disp =>
      if st.readingDone then st
      else
        match dispatchOne p st.ps st.stream with
        | .error _ => { st with crashed := true }
        | .ok (ps1, s1, msgs, _, exitNow) =>
          { st with ps := ps1, stream := s1, queue := st.queue ++ msgs,
                    readingDone := exitNow }
    | .writer =>
      match st.queue with
      | [] => st
      | m :: rest => { st with queue := rest, written := st.written ++ [m] }
    | .close =>
      if st.readingDone then { st with exited := true } else st

/-- Run the host adapter under an explicit schedule. -/
def sysRun (p : Plugin σ) (sched : List Choice) (st : SysState σ) : SysState σ :=
  match sched with
  | [] => st
  | c :: cs => sysRun p cs (sysStep p c st)

/-- Initial process state on a connection delivering `s`. -/
def sysInit (st0 : σ) (s : List Nat) : SysState σ :=
  ⟨st0, s, [], [], false, false, false⟩

/-- A plugin whose `on_message` panics unconditionally. -/
def pBoom : Plugin Unit where
  on_message _ _ _ := .error "boom"
  on_client_connect s _ := .ok s
  on_client_disconnect s _ := .ok s

/-- A plugin whose `on_message` calls `ctx.send` exactly once, with the
bytes of the string `\x7b"ok":true\x7d`. -/
def pEcho : Plugin Unit where
  on_message s _ _ := .ok (s, [[123, 34, 111, 107, 34, 58, 116, 114, 117, 101, 125]])
  on_client_connect s _ := .ok s
  on_client_disconnect s _ := .ok s

/-- A plugin that records the auth token its callback received. -/
def pRecordTok : Plugin (List Nat) where
  on_message _ _ ctx := .ok (ctx.auth_token, [])
  on_client_connect s _ := .ok s
  on_client_disconnect s _ := .ok s

/-- The payload-length field of an encoded response frame: bytes 4..8 read
back as a big-endian u32 (through a fresh four-byte buffer). -/
def lenField (s : List Nat) : Nat :=
  readU32 (refillBuf ⟨0, 0, 0, 0⟩ ((s.drop 4).take 4))

/-- Reading a four-byte big-endian integer from the head of the stream
refills the buffer with exactly those four bytes. -/
theorem readFourRaw_append (buf : Buf4) (n : Nat) (rest : List Nat) :
    readFourRaw buf (toBE32 n ++ rest) =
      (⟨n / 16777216 % 256, n / 65536 % 256, n / 256 % 256, n % 256⟩, rest) := by
  simp [readFourRaw, toBE32, refillBuf]

/-- `read_u32` is a left inverse of `write_u32` on the u32 range. -/
theorem readU32_toBE32 (n : Nat) (h : n < 4294967296) :
    readU32 ⟨n / 16777216 % 256, n / 65536 % 256, n / 256 % 256, n % 256⟩ = n := by
  simp [readU32]
  omega

/-- Reading a length-prefixed UTF-8 field from the head of the stream
returns the field bytes and the remaining stream. -/
theorem readTokenField_exact (t rest : List Nat) (msg : String)
    (hv : validUtf8 t = true) :
    readTokenField t.length (t ++ rest) msg = .ok (t, rest) := by
  cases t with
  | nil => simp [readTokenField]
  | cons a l =>
    have hle : (a :: l).length ≤ ((a :: l) ++ rest).length := by
      simp [List.length_append]
    simp [readTokenField, read_exact, hle, List.take_left, List.drop_left, from_utf8, hv]

/-- `read_request` on a stream starting with a well-formed Invoke frame
parses exactly that frame and leaves the rest of the stream. -/
theorem read_request_encodeInvoke (c : Nat) (t j rest : List Nat)
    (hc : c < 4294967296) (ht : t.length < 4294967296) (hj : j.length < 4294967296)
    (hvt : validUtf8 t = true) (hvj : validUtf8 j = true) :
    read_request (encodeInvokeFrame c t j ++ rest) = .ok (.Invoke ⟨c, t, j⟩, rest) := by
  have h1 : encodeInvokeFrame c t j ++ rest =
      toBE32 1 ++ (toBE32 c ++ (toBE32 t.length ++ (toBE32 j.length ++ (t ++ (j ++ rest))))) := by
    simp [encodeInvokeFrame, ID_INVOKE, List.append_assoc]
  rw [h1]
  simp only [read_request, readFourRaw_append]
  simp [readU32_toBE32 1 (by norm_num), readU32_toBE32 c hc, readU32_toBE32 t.length ht,
    readU32_toBE32 j.length hj, ID_INVOKE, readTokenField_exact, hvt, hvj]

/-- `read_request` on a stream starting with a well-formed Attach frame. -/
theorem read_request_encodeAttach (c : Nat) (a : Bool) (rest : List Nat)
    (hc : c < 4294967296) :
    read_request (encodeAttachFrame c a ++ rest) = .ok (.Attach ⟨c, a⟩, rest) := by
  have h1 : encodeAttachFrame c a ++ rest =
      toBE32 2 ++ (toBE32 c ++ ((if a then 1 else 0) :: rest)) := by
    cases a <;> simp [encodeAttachFrame, ID_ATTACH, List.append_assoc]
  rw [h1]
  simp only [read_request, readFourRaw_append]
  cases a <;>
    simp [readU32_toBE32 2 (by norm_num), readU32_toBE32 c hc, ID_INVOKE, ID_ATTACH,
      readOneRaw]

/-- `read_request` on a stream starting with an Exit frame. -/
theorem read_request_encodeExit (rest : List Nat) :
    read_request (encodeExitFrame ++ rest) = .ok (.Exit, rest) := by
  have h1 : encodeExitFrame ++ rest = toBE32 3 ++ rest := by
    simp [encodeExitFrame, ID_EXIT]
  rw [h1]
  simp only [read_request, readFourRaw_append]
  simp [readU32_toBE32 3 (by norm_num), ID_INVOKE, ID_ATTACH, ID_EXIT]

/-- `read_request` on an unrecognized command id returns `Request::Err`,
consuming only the four id bytes. -/
theorem read_request_badId (n : Nat) (rest : List Nat) (hn : n < 4294967296)
    (h1 : n ≠ 1) (h2 : n ≠ 2) (h3 : n ≠ 3) :
    read_request (toBE32 n ++ rest) = .ok (.Err ("Invalid command_id " ++ toString n), rest) := by
  simp only [read_request, readFourRaw_append]
  simp [readU32_toBE32 n hn, ID_INVOKE, ID_ATTACH, ID_EXIT, h1, h2, h3]

/-- `send_response` always appends the payload bytes (the empty case writes
nothing, which coincides with appending the empty payload). -/
theorem send_response_eq (c : Nat) (p : List Nat) :
    send_response c p = toBE32 c ++ (toBE32 (p.length % 4294967296) ++ p) := by
  cases p <;> simp [send_response]

/-- The length field written by `send_response` is the payload byte length
reduced modulo `2^32`. -/
theorem lenField_send_response (c : Nat) (p : List Nat) :
    lenField (send_response c p) = p.length % 4294967296 := by
  rw [send_response_eq]
  simp only [toBE32, lenField, List.cons_append, List.nil_append, List.drop_succ_cons,
    List.drop_zero, List.take_succ_cons, List.take_zero]
  simp [refillBuf, readU32]
  omega

/-- C1: for every valid Invoke frame (big-endian u32 id=1, channel,
token_len, payload_len, then token and payload bytes of UTF-8, each omitted
when empty), `read_request` returns `Request::Invoke` whose channel, token
and payload equal the encoded ones exactly, including zero-length token
and/or payload: decode is a left inverse of request encoding. -/
theorem invoke_frame_roundtrip (c : Nat) (t j : List Nat)
    (hc : c < 4294967296) (ht : t.length < 4294967296) (hj : j.length < 4294967296)
    (hvt : validUtf8 t = true) (hvj : validUtf8 j = true) :
    read_request (encodeInvokeFrame c t j) = .ok (.Invoke ⟨c, t, j⟩, []) := by
  have h := read_request_encodeInvoke c t j [] hc ht hj hvt hvj
  simpa using h

/-- Witness for C1 at channel 7 with zero-length token and payload. -/
theorem invoke_frame_roundtrip_witness :
    read_request (encodeInvokeFrame 7 [] []) = .ok (.Invoke ⟨7, [], []⟩, []) :=
  invoke_frame_roundtrip 7 [] [] (by decide) (by decide) (by decide) (by decide) (by decide)

/-- C2 counterexample: with a plugin whose `on_message` panics, the dispatch
loop on a connection carrying an Invoke frame followed by an Attach frame
ends in the uncaught panic — the failure is not caught and the next frame is
never dispatched, refuting the claim at this concrete input. -/
theorem callback_panic_crashes_loop_cex :
    dispatchLoop pBoom 10 ()
      (encodeInvokeFrame 1 [] [65] ++ encodeAttachFrame 2 true) [] [] = .error "boom" := rfl

/-- C2 amended: a panic in the plugin's `on_message` while dispatching an
Invoke frame is not caught by the host dispatcher; it propagates and
terminates the dispatch loop, and no further frame is read (containment of
callback failures exists only in the cross-boundary adapter of the SDK). -/
theorem callback_panic_propagates (p : Plugin σ) (fuel : Nat) (st : σ)
    (c : Nat) (t j rest : List Nat) (q : List Message) (ev : List Event) (e : String)
    (hc : c < 4294967296) (ht : t.length < 4294967296) (hj : j.length < 4294967296)
    (hvt : validUtf8 t = true) (hvj : validUtf8 j = true)
    (hcb : p.on_message st j ⟨c, t⟩ = .error e) :
    dispatchLoop p (fuel + 1) st (encodeInvokeFrame c t j ++ rest) q ev = .error e := by
  simp [dispatchLoop, dispatchOne,
    read_request_encodeInvoke c t j rest hc ht hj hvt hvj, hcb]

/-- Witness for the amended C2, at one fuel step with `pBoom`. -/
theorem callback_panic_propagates_witness :
    dispatchLoop pBoom 1 ()
      (encodeInvokeFrame 1 [] [65] ++ encodeAttachFrame 2 true) [] [] = .error "boom" :=
  callback_panic_propagates pBoom 0 () 1 [] [65] (encodeAttachFrame 2 true) [] [] "boom"
    (by decide) (by decide) (by decide) (by decide) (by decide) rfl

/-- C3 counterexample: the plugin enqueues one message while the dispatcher
handles the Invoke frame; the dispatcher then processes Exit; `main` drops
the stream and returns without joining or draining the writer thread, a
schedule the code permits.  The process ends (`exited = true`) with the
pre-Exit message still in the queue and nothing written, refuting the claim
that the write-side queue drains to empty before the connection closes. -/
theorem exit_close_unwritten_queue_cex :
    sysRun pEcho [.disp, .disp, .close]
      (sysInit () (encodeInvokeFrame 7 [] [65] ++ encodeExitFrame)) =
    ⟨(), [], [⟨7, [123, 34, 111, 107, 34, 58, 116, 114, 117, 101, 125]⟩], [],
      true, true, false⟩ := rfl

/-- C3 amended: after an Exit frame is processed the dispatcher reads no
further frames, and while the process is alive the writer delivers queued
messages in order; but nothing forces the queue to drain before the process
exits — once `main` has returned, nothing more is written, so messages
enqueued before Exit are not guaranteed to reach the connection. -/
theorem exit_stops_reads_writer_order (p : Plugin σ) (st : SysState σ) :
    (st.readingDone = true → sysStep p .disp st = st)
    ∧ (st.exited = true → sysStep p .writer st = st)
    ∧ (st.exited = false → st.crashed = false → ∀ m ms, st.queue = m :: ms →
        sysStep p .writer st = { st with queue := ms, written := st.written ++ [m] }) := by
  refine ⟨?_, ?_, ?_⟩
  · intro h
    simp [sysStep, h]
  · intro h
    simp [sysStep, h]
  · intro h1 h2 m ms hq
    simp [sysStep, h1, h2, hq]

/-- Witness for the amended C3 at concrete process states. -/
theorem exit_stops_reads_writer_order_witness :
    sysStep pEcho .disp ⟨(), [9], [], [], true, false, false⟩ =
      ⟨(), [9], [], [], true, false, false⟩
    ∧ sysStep pEcho .writer ⟨(), [], [⟨1, []⟩], [], true, true, false⟩ =
      ⟨(), [], [⟨1, []⟩], [], true, true, false⟩
    ∧ sysStep pEcho .writer ⟨(), [], [⟨1, [65]⟩], [], false, false, false⟩ =
      ⟨(), [], [], [⟨1, [65]⟩], false, false, false⟩ := by
  refine ⟨(exit_stops_reads_writer_order pEcho _).1 rfl,
    (exit_stops_reads_writer_order pEcho _).2.1 rfl, ?_⟩
  have h := (exit_stops_reads_writer_order pEcho
    ⟨(), [], [⟨1, [65]⟩], [], false, false, false⟩).2.2 rfl rfl ⟨1, [65]⟩ [] rfl
  simpa using h

/-- C4 (code bug shown on the code): on a connection that delivers the four
Attach id bytes `00 00 00 02` and then closes, the u32 reads of the channel
cannot obtain their four bytes (`read` returns 0 bytes at EOF), yet
`read_request` raises no error: it parses channel 2 out of the stale command
id bytes left in the reused buffer and attach=false out of the untouched
1-byte buffer, returning a successfully parsed request built from partial
and stale bytes. -/
theorem read_request_stale_bytes_bug :
    read_request [0, 0, 0, 2] = .ok (.Attach ⟨2, false⟩, []) := rfl

/-- C5 counterexample: a frame with unrecognized command id 9 followed by an
Exit frame.  The dispatch loop logs the decode error and then still reads
and processes the next frame (the run ends through Exit with both events
recorded), refuting the claim that the loop terminates at the decode error
and reads no further frames. -/
theorem bad_id_loop_continues_cex :
    dispatchLoop pEcho 10 () ([0, 0, 0, 9] ++ encodeExitFrame) [] [] =
      .ok ⟨(), [], [], [.errLogged "Invalid command_id 9", .exited], true⟩ := rfl

/-- C5 amended: on an unrecognized command id (any id other than 1, 2, 3)
the dispatch loop logs `Invalid command_id` and continues with the rest of
the stream; the error does not terminate the loop. -/
theorem bad_id_logged_and_loop_continues (p : Plugin σ) (fuel : Nat) (st : σ)
    (n : Nat) (rest : List Nat) (q : List Message) (ev : List Event)
    (hn : n < 4294967296) (h1 : n ≠ 1) (h2 : n ≠ 2) (h3 : n ≠ 3) :
    dispatchLoop p (fuel + 1) st (toBE32 n ++ rest) q ev =
      dispatchLoop p fuel st rest q
        (ev ++ [.errLogged ("Invalid command_id " ++ toString n)]) := by
  simp [dispatchLoop, dispatchOne, read_request_badId n rest hn h1 h2 h3]

/-- Witness for the amended C5 at id 9 followed by an Exit frame. -/
theorem bad_id_logged_and_loop_continues_witness :
    dispatchLoop pEcho 1 () (toBE32 9 ++ encodeExitFrame) [] [] =
      dispatchLoop pEcho 0 () encodeExitFrame []
        ([] ++ [.errLogged ("Invalid command_id " ++ toString 9)]) :=
  bad_id_logged_and_loop_continues pEcho 0 () 9 encodeExitFrame [] []
    (by decide) (by decide) (by decide) (by decide)

/-- C6: dispatching an Invoke frame with channel `c` calls `on_message` with
a `RequestContext` whose channel is `c` (the hypothesis `hcb` exhibits the
exact context the callback receives), each `ctx.send(payload)` enqueues
exactly one `Message` carrying channel `c` and that payload, and the writer
turns each such message into exactly one `send_response` frame with channel
`c` and that payload. -/
theorem invoke_ctx_channel_and_send (p : Plugin σ) (fuel : Nat) (st st1 : σ)
    (c : Nat) (t j rest : List Nat) (q : List Message) (ev : List Event)
    (sends : List (List Nat))
    (hc : c < 4294967296) (ht : t.length < 4294967296) (hj : j.length < 4294967296)
    (hvt : validUtf8 t = true) (hvj : validUtf8 j = true)
    (hcb : p.on_message st j ⟨c, t⟩ = .ok (st1, sends)) :
    dispatchLoop p (fuel + 1) st (encodeInvokeFrame c t j ++ rest) q ev =
      dispatchLoop p fuel st1 rest
        (q ++ sends.map (RequestContext.send ⟨c, t⟩)) (ev ++ [.invoked c t j])
    ∧ (sends.map (RequestContext.send ⟨c, t⟩)).map writeMessage =
        sends.map (fun d => send_response c d) := by
  constructor
  · simp [dispatchLoop, dispatchOne,
      read_request_encodeInvoke c t j rest hc ht hj hvt hvj, hcb]
  · simp [writeMessage, RequestContext.send, List.map_map, Function.comp]

/-- Witness for C6, the concrete scenario: Invoke with channel 7, empty
token, payload the bytes of the JSON object with key a and value 1; the
callback sends once the 11 payload bytes of the JSON object with key ok and
value true, yielding one message on channel 7 and one frame. -/
theorem invoke_ctx_channel_and_send_witness :
    dispatchLoop pEcho 1 ()
        (encodeInvokeFrame 7 [] [123, 34, 97, 34, 58, 49, 125] ++ []) [] [] =
      dispatchLoop pEcho 0 () []
        ([] ++ [[123, 34, 111, 107, 34, 58, 116, 114, 117, 101, 125]].map
          (RequestContext.send ⟨7, []⟩))
        ([] ++ [.invoked 7 [] [123, 34, 97, 34, 58, 49, 125]])
    ∧ ([[123, 34, 111, 107, 34, 58, 116, 114, 117, 101, 125]].map
          (RequestContext.send ⟨7, []⟩)).map writeMessage =
        [[123, 34, 111, 107, 34, 58, 116, 114, 117, 101, 125]].map
          (fun d => send_response 7 d) :=
  invoke_ctx_channel_and_send pEcho 0 () () 7 [] [123, 34, 97, 34, 58, 49, 125] [] [] []
    [[123, 34, 111, 107, 34, 58, 116, 114, 117, 101, 125]]
    (by decide) (by decide) (by decide) (by decide) (by decide) rfl

/-- C7: decoding the bytes written by `send_response` as a response (per the
wire layout: channel u32, payload_len u32, payload bytes, no command id)
reproduces the channel and payload exactly, including zero-length payload. -/
theorem response_roundtrip (c : Nat) (p : List Nat)
    (hc : c < 4294967296) (hp : p.length < 4294967296) :
    decodeResponse (send_response c p) = some (c, p, []) := by
  rw [send_response_eq]
  have hm : p.length % 4294967296 = p.length := Nat.mod_eq_of_lt hp
  simp only [toBE32, hm, List.cons_append, List.nil_append, decodeResponse]
  have h1 : ((c / 16777216 % 256 * 256 + c / 65536 % 256) * 256 + c / 256 % 256) * 256
      + c % 256 = c := by
    omega
  have h2 : ((p.length / 16777216 % 256 * 256 + p.length / 65536 % 256) * 256 +
      p.length / 256 % 256) * 256 + p.length % 256 = p.length := by
    omega
  simp [h1, h2]

/-- Witness for C7 at channel 9 with a zero-length payload. -/
theorem response_roundtrip_witness :
    decodeResponse (send_response 9 []) = some (9, [], []) :=
  response_roundtrip 9 [] (by decide) (by decide)

/-- C8: with non-null handle and payload pointers, each of the three
boundary-crossing dispatch functions returns normally for every plugin
behaviour (`isOk`), and when the contained callback fails the function logs
the failure and returns with the plugin unchanged and no message sent — the
unwind never crosses the C boundary. -/
theorem boundary_contains_failures (impl : Plugin σ) (cp : CPlugin σ) (jb : List Nat)
    (ctx : CRequestContext) (ch : Nat) :
    (wpe_rust_plugin_invoke impl (some cp) (some jb) ctx).isOk = true
    ∧ (wpe_rust_plugin_on_client_connect impl (some cp) ch).isOk = true
    ∧ (wpe_rust_plugin_on_client_disconnect impl (some cp) ch).isOk = true
    ∧ (∀ cause, CPlugin.on_incoming_message impl cp (some jb) ctx = .error cause →
        wpe_rust_plugin_invoke impl (some cp) (some jb) ctx =
          .ok (cp, [], ["Error calling on_incoming_message", cause]))
    ∧ (∀ cause, impl.on_client_connect cp.ps ch = .error cause →
        wpe_rust_plugin_on_client_connect impl (some cp) ch =
          .ok (cp, ["Error calling on_client_connect", cause]))
    ∧ (∀ cause, impl.on_client_disconnect cp.ps ch = .error cause →
        wpe_rust_plugin_on_client_disconnect impl (some cp) ch =
          .ok (cp, ["Error calling on_client_disconnect", cause])) := by
  refine ⟨?_, ?_, ?_, ?_, ?_, ?_⟩
  · cases h : CPlugin.on_incoming_message impl cp (some jb) ctx with
    | error e => simp [wpe_rust_plugin_invoke, h, Except.isOk, Except.toBool]
    | ok r => simp [wpe_rust_plugin_invoke, h, Except.isOk, Except.toBool]
  · cases h : impl.on_client_connect cp.ps ch with
    | error e => simp [wpe_rust_plugin_on_client_connect, h, Except.isOk, Except.toBool]
    | ok r => simp [wpe_rust_plugin_on_client_connect, h, Except.isOk, Except.toBool]
  · cases h : impl.on_client_disconnect cp.ps ch with
    | error e => simp [wpe_rust_plugin_on_client_disconnect, h, Except.isOk, Except.toBool]
    | ok r => simp [wpe_rust_plugin_on_client_disconnect, h, Except.isOk, Except.toBool]
  · intro cause h
    simp [wpe_rust_plugin_invoke, h]
  · intro cause h
    simp [wpe_rust_plugin_on_client_connect, h]
  · intro cause h
    simp [wpe_rust_plugin_on_client_disconnect, h]

/-- Witness for C8 with the always-panicking plugin: the invoke entry point
still returns `Ok`, with the panic logged and no effect. -/
theorem boundary_contains_failures_witness :
    (wpe_rust_plugin_invoke pBoom (some ⟨[], ()⟩) (some [65]) ⟨1, none⟩).isOk = true
    ∧ wpe_rust_plugin_invoke pBoom (some ⟨[], ()⟩) (some [65]) ⟨1, none⟩ =
        .ok (⟨[], ()⟩, [], ["Error calling on_incoming_message", "boom"]) :=
  ⟨(boundary_contains_failures pBoom ⟨[], ()⟩ [65] ⟨1, none⟩ 0).1,
   (boundary_contains_failures pBoom ⟨[], ()⟩ [65] ⟨1, none⟩ 0).2.2.2.1 "boom" rfl⟩

/-- C9 counterexample: a null `auth_token` pointer inside `CRequestContext`
is not a precondition failure — `wpe_rust_plugin_invoke` returns normally
and the callback observes the empty string; and `wpe_rust_plugin_init`
accepts a null handle without any validation.  This refutes the claim that
every pointer argument of the C surface is validated non-null with abort on
violation. -/
theorem null_pointer_claim_cex :
    wpe_rust_plugin_invoke pRecordTok (some ⟨[], [55]⟩) (some [65]) ⟨1, none⟩ =
      .ok (⟨[], []⟩, [], [])
    ∧ wpe_rust_plugin_init Unit none none = .ok () :=
  ⟨rfl, rfl⟩

/-- C9 amended: the pointer arguments that are dereferenced are validated
non-null by assertion before the dereference — the metadata pointer of
create and the handle of destroy, invoke, connect and disconnect, plus the
payload pointer of invoke — and a null one aborts; but the `auth_token`
pointer inside `CRequestContext` is instead recovered as the empty string by
`cstr_to_string` (a null token behaves like an empty one), and init neither
validates nor dereferences its pointer and returns normally on null. -/
theorem null_checks_dereferenced_only (σ : Type) (impl : Plugin σ) (cp : CPlugin σ)
    (nm jb : Option (List Nat)) (jb2 : List Nat) (ctx : CRequestContext) (ch : Nat) :
    wpe_rust_plugin_create σ nm none = .error "assertion failed: !meta_data.is_null()"
    ∧ wpe_rust_plugin_destroy (none : Option (CPlugin σ)) =
        .error "assertion failed: !ptr.is_null()"
    ∧ wpe_rust_plugin_invoke impl none jb ctx = .error "assertion failed: !ptr.is_null()"
    ∧ wpe_rust_plugin_invoke impl (some cp) none ctx =
        .error "assertion failed: !json_req.is_null()"
    ∧ wpe_rust_plugin_on_client_connect impl none ch =
        .error "assertion failed: !ptr.is_null()"
    ∧ wpe_rust_plugin_on_client_disconnect impl none ch =
        .error "assertion failed: !ptr.is_null()"
    ∧ cstr_to_string none = .ok []
    ∧ wpe_rust_plugin_init σ (none : Option (CPlugin σ)) jb = .ok ()
    ∧ wpe_rust_plugin_invoke impl (some cp) (some jb2) ⟨ch, none⟩ =
        wpe_rust_plugin_invoke impl (some cp) (some jb2) ⟨ch, some []⟩ :=
  ⟨rfl, rfl, rfl, rfl, rfl, rfl, rfl, rfl, rfl⟩

/-- C10: `send_response` writes the payload-length field as the payload byte
length reduced modulo `2^32` (the `as u32` cast); for payloads of byte
length at most `2^32 - 1` the field equals the true length, and for longer
payloads it wraps and no longer matches the number of payload bytes. -/
theorem payload_len_field_mod_u32 (c : Nat) (p : List Nat) :
    lenField (send_response c p) = p.length % 4294967296
    ∧ (p.length < 4294967296 → lenField (send_response c p) = p.length)
    ∧ (4294967296 ≤ p.length → lenField (send_response c p) ≠ p.length) := by
  have h := lenField_send_response c p
  refine ⟨h, fun hlt => ?_, fun hge => ?_⟩
  · rw [h, Nat.mod_eq_of_lt hlt]
  · rw [h]
    have hm : p.length % 4294967296 < 4294967296 := Nat.mod_lt _ (by norm_num)
    omega

/-- Witness for C10 on a two-byte payload. -/
theorem payload_len_field_mod_u32_witness :
    lenField (send_response 7 [65, 66]) = 2 :=
  (payload_len_field_mod_u32 7 [65, 66]).2.1 (by decide)
